import Mathlib

/-!
Verification of the transaction-categorization / tax-computation / CIBIL
estimation core of the `myproject` repository, shallowly embedded in Lean.

Money amounts and rates are modelled as exact rationals (`ℚ`); Python's
`float('inf')` slab upper bound is modelled as `Option ℚ` with `none`
standing for the unbounded top slab.  Python dicts with string keys are
modelled as association lists `List (String × ℚ)` (only the sum of the
values is ever consumed by the tax functions) or, when the key set is
fixed, as Lean structures with one field per key.
-/

/-- Python's two-argument `max` builtin on rationals, written out as a
conditional so that it evaluates inside the kernel. -/
def pymax (a b : ℚ) : ℚ := if a ≤ b then b else a

/-- Python's two-argument `min` builtin on rationals. -/
def pymin (a b : ℚ) : ℚ := if a ≤ b then a else b

/-- Python's `abs` builtin on rationals. -/
def pyabs (a : ℚ) : ℚ := if a < 0 then -a else a

theorem pymax_eq_max (a b : ℚ) : pymax a b = max a b := by
  simp [pymax, max_def]

theorem pymin_eq_min (a b : ℚ) : pymin a b = min a b := by
  simp [pymin, min_def]

theorem pyabs_eq_abs (a : ℚ) : pyabs a = |a| := by
  rcases le_or_lt 0 a with h | h
  · rw [pyabs, if_neg (not_lt.mpr h), abs_of_nonneg h]
  · rw [pyabs, if_pos h, abs_of_neg h]

theorem le_pymax_left (a b : ℚ) : a ≤ pymax a b := by
  rw [pymax_eq_max]; exact le_max_left a b

namespace TaxCalc

/-- One tax slab, as in `setup_tax_slabs`: `{'min': …, 'max': …, 'rate': …}`.
`max = none` models `float('inf')`. -/
structure TaxSlab where
  min : ℚ
  max : Option ℚ
  rate : ℚ
deriving DecidableEq, Repr

/-- Old regime tax slabs (FY 2023-24), from `setup_tax_slabs`. -/
def old_regime_slabs : List TaxSlab :=
  [⟨0, some 250000, 0⟩,
   ⟨250000, some 500000, 0.05⟩,
   ⟨500000, some 1000000, 0.20⟩,
   ⟨1000000, none, 0.30⟩]

/-- New regime tax slabs (FY 2023-24), from `setup_tax_slabs`. -/
def new_regime_slabs : List TaxSlab :=
  [⟨0, some 300000, 0⟩,
   ⟨300000, some 600000, 0.05⟩,
   ⟨600000, some 900000, 0.10⟩,
   ⟨900000, some 1200000, 0.15⟩,
   ⟨1200000, some 1500000, 0.20⟩,
   ⟨1500000, none, 0.30⟩]

def standard_deduction : ℚ := 50000

def rebate_87a : ℚ := 12500

def rebate_87a_new : ℚ := 25000

/-- The amount of `remaining` income that falls into slab `s`:
`min(remaining_income, slab['max'] - slab['min'])`, where subtracting
`min` from an infinite `max` leaves `remaining` itself. -/
def slab_income (remaining : ℚ) (s : TaxSlab) : ℚ :=
  match s.max with
  | none => remaining
  | some m => pymin remaining (m - s.min)

/-- The loop body of `_calculate_slab_tax`: walk the slabs, taxing
`min(remaining, width)` at each slab's rate, breaking when no income
remains. -/
def slabLoop : ℚ → List TaxSlab → ℚ
  | _, [] => 0
  | remaining, s :: rest =>
    if remaining ≤ 0 then 0
    else if 0 < slab_income remaining s then
      slab_income remaining s * s.rate + slabLoop (remaining - slab_income remaining s) rest
    else slabLoop remaining rest

/-- `_calculate_slab_tax(taxable_income, slabs)`. -/
def calculate_slab_tax (taxable_income : ℚ) (slabs : List TaxSlab) : ℚ :=
  slabLoop taxable_income slabs

/-- Sum of the values of a string-keyed dict, `sum(deductions.values())`. -/
def sumValues (d : List (String × ℚ)) : ℚ :=
  (d.map Prod.snd).sum

/-- Result dict of `calculate_old_regime_tax`. -/
structure OldRegimeResult where
  gross_income : ℚ
  total_deductions : ℚ
  taxable_income : ℚ
  income_tax : ℚ
  cess : ℚ
  total_tax : ℚ
  effective_rate : ℚ
  deduction_breakdown : List (String × ℚ)
deriving DecidableEq, Repr

/-- Result dict of `calculate_new_regime_tax`. -/
structure NewRegimeResult where
  gross_income : ℚ
  total_deductions : ℚ
  taxable_income : ℚ
  income_tax : ℚ
  cess : ℚ
  total_tax : ℚ
  effective_rate : ℚ
deriving DecidableEq, Repr

/-- `calculate_old_regime_tax(gross_income, deductions)`. -/
def calculate_old_regime_tax (gross_income : ℚ) (deductions : List (String × ℚ)) :
    OldRegimeResult :=
  let total_deductions := sumValues deductions + standard_deduction
  let taxable_income := pymax 0 (gross_income - total_deductions)
  let slab_tax := calculate_slab_tax taxable_income old_regime_slabs
  let income_tax := if taxable_income ≤ 500000 then pymax 0 (slab_tax - rebate_87a) else slab_tax
  let cess := income_tax * 0.04
  let total_tax := income_tax + cess
  { gross_income := gross_income
    total_deductions := total_deductions
    taxable_income := taxable_income
    income_tax := income_tax
    cess := cess
    total_tax := total_tax
    effective_rate := if 0 < gross_income then total_tax / gross_income * 100 else 0
    deduction_breakdown := deductions }

/-- `calculate_new_regime_tax(gross_income)`. -/
def calculate_new_regime_tax (gross_income : ℚ) : NewRegimeResult :=
  let taxable_income := pymax 0 (gross_income - standard_deduction)
  let slab_tax := calculate_slab_tax taxable_income new_regime_slabs
  let income_tax := if taxable_income ≤ 700000 then pymax 0 (slab_tax - rebate_87a_new) else slab_tax
  let cess := income_tax * 0.04
  let total_tax := income_tax + cess
  { gross_income := gross_income
    total_deductions := standard_deduction
    taxable_income := taxable_income
    income_tax := income_tax
    cess := cess
    total_tax := total_tax
    effective_rate := if 0 < gross_income then total_tax / gross_income * 100 else 0 }

/-- Result dict of `compare_regimes`. -/
structure RegimeComparison where
  old_regime : OldRegimeResult
  new_regime : NewRegimeResult
  recommended_regime : String
  savings : ℚ
  savings_percentage : ℚ
deriving DecidableEq, Repr

/-- `compare_regimes(gross_income, deductions)`. -/
def compare_regimes (gross_income : ℚ) (deductions : List (String × ℚ)) :
    RegimeComparison :=
  let o := calculate_old_regime_tax gross_income deductions
  let n := calculate_new_regime_tax gross_income
  let savings := pyabs (o.total_tax - n.total_tax)
  { old_regime := o
    new_regime := n
    recommended_regime := if o.total_tax < n.total_tax then "old" else "new"
    savings := savings
    savings_percentage :=
      if 0 < pymax o.total_tax n.total_tax then savings / pymax o.total_tax n.total_tax * 100
      else 0 }

/-- Exact marginal-bracket taxation: each slab taxes only the income that
falls inside it, `rate × max(0, min(income, slab_max) − slab_min)`, an
infinite `slab_max` imposing no upper cut. -/
def marginal_slab_tax (income : ℚ) (slabs : List TaxSlab) : ℚ :=
  (slabs.map (fun s =>
    pymax 0 ((match s.max with
              | none => income
              | some m => pymin income m) - s.min) * s.rate)).sum

/-- An ascending slab table starting at `b`: each slab begins where the
previous one ended, finite slabs are non-empty intervals, and an unbounded
slab can only close the table. -/
inductive SlabChain : ℚ → List TaxSlab → Prop
  | nil (b : ℚ) : SlabChain b []
  | cons (b m r : ℚ) (rest : List TaxSlab) (hbm : b ≤ m) (h : SlabChain m rest) :
      SlabChain b (⟨b, some m, r⟩ :: rest)
  | top (b r : ℚ) : SlabChain b [⟨b, none, r⟩]

theorem pymax0_of_nonpos {x : ℚ} (h : x ≤ 0) : pymax 0 x = 0 := by
  rw [pymax]; split_ifs with h' <;> linarith

theorem pymax0_of_nonneg {x : ℚ} (h : 0 ≤ x) : pymax 0 x = x := by
  rw [pymax, if_pos h]

theorem pymin_left {a b : ℚ} (h : a ≤ b) : pymin a b = a := by
  rw [pymin, if_pos h]

theorem pymin_right {a b : ℚ} (h : b ≤ a) : pymin a b = b := by
  rw [pymin]; split_ifs with h' <;> linarith

theorem slabLoop_zero (slabs : List TaxSlab) : slabLoop 0 slabs = 0 := by
  cases slabs with
  | nil => rfl
  | cons s rest => simp [slabLoop]

/-- The slab walk started with the income above `b`, over any ascending
table starting at `b`, computes exact marginal-bracket tax. -/
theorem slabLoop_eq_marginal (b : ℚ) (slabs : List TaxSlab)
    (hchain : SlabChain b slabs) (income : ℚ) :
    slabLoop (pymax 0 (income - b)) slabs = marginal_slab_tax income slabs := by
  induction hchain generalizing income with
  | nil b => simp [slabLoop, marginal_slab_tax]
  | top b r =>
    rcases le_or_lt income b with h | h
    · rw [pymax0_of_nonpos (by linarith), slabLoop_zero]
      simp [marginal_slab_tax, pymax0_of_nonpos (show income - b ≤ 0 by linarith)]
    · rw [pymax0_of_nonneg (by linarith)]
      simp only [slabLoop, slab_income, marginal_slab_tax, List.map_cons, List.map_nil,
        List.sum_cons, List.sum_nil, add_zero]
      rw [if_neg (by linarith), if_pos (by linarith),
        pymax0_of_nonneg (show (0:ℚ) ≤ income - b by linarith)]
  | cons b m r rest hbm hrest ih =>
    simp only [slabLoop, slab_income, marginal_slab_tax, List.map_cons, List.sum_cons]
    rw [← marginal_slab_tax]
    rcases le_or_lt income b with h | h
    · rw [pymax0_of_nonpos (by linarith), if_pos le_rfl,
        pymin_left (show income ≤ m by linarith),
        pymax0_of_nonpos (show income - b ≤ 0 by linarith),
        ← ih income, pymax0_of_nonpos (show income - m ≤ 0 by linarith), slabLoop_zero]
      ring
    · rw [pymax0_of_nonneg (show (0:ℚ) ≤ income - b by linarith),
        if_neg (by linarith)]
      rcases lt_or_le b m with hbm' | hbm'
      · rcases le_or_lt income m with him | him
        · rw [pymin_left (show income - b ≤ m - b by linarith),
            pymin_left (show income ≤ m from him), if_pos (by linarith),
            pymax0_of_nonneg (show (0:ℚ) ≤ income - b by linarith)]
          have h3 : income - b - (income - b) = 0 := by ring
          rw [h3, slabLoop_zero, ← ih income,
            pymax0_of_nonpos (show income - m ≤ 0 by linarith), slabLoop_zero]
        · rw [pymin_right (show m - b ≤ income - b by linarith),
            pymin_right (show m ≤ income by linarith), if_pos (by linarith),
            pymax0_of_nonneg (show (0:ℚ) ≤ m - b by linarith)]
          have h3 : income - b - (m - b) = income - m := by ring
          rw [h3, ← ih income,
            pymax0_of_nonneg (show (0:ℚ) ≤ income - m by linarith)]
      · have hm : m = b := le_antisymm hbm' hbm
        subst hm
        rw [show m - m = 0 by ring, pymin_right (show (0:ℚ) ≤ income - m by linarith),
          if_neg (by linarith), pymin_right (show m ≤ income by linarith),
          show m - m = 0 by ring, pymax0_of_nonpos le_rfl, ← ih income,
          pymax0_of_nonneg (show (0:ℚ) ≤ income - m by linarith)]
        ring



theorem slabChain_old : SlabChain 0 old_regime_slabs := by
  unfold old_regime_slabs
  exact SlabChain.cons 0 250000 0 _ (by norm_num)
    (SlabChain.cons 250000 500000 0.05 _ (by norm_num)
      (SlabChain.cons 500000 1000000 0.20 _ (by norm_num)
        (SlabChain.top 1000000 0.30)))

theorem slabChain_new : SlabChain 0 new_regime_slabs := by
  unfold new_regime_slabs
  exact SlabChain.cons 0 300000 0 _ (by norm_num)
    (SlabChain.cons 300000 600000 0.05 _ (by norm_num)
      (SlabChain.cons 600000 900000 0.10 _ (by norm_num)
        (SlabChain.cons 900000 1200000 0.15 _ (by norm_num)
          (SlabChain.cons 1200000 1500000 0.20 _ (by norm_num)
            (SlabChain.top 1500000 0.30)))))

theorem slabLoop_nonneg (rem : ℚ) (slabs : List TaxSlab)
    (h : ∀ s ∈ slabs, 0 ≤ s.rate) : 0 ≤ slabLoop rem slabs := by
  induction slabs generalizing rem with
  | nil => simp [slabLoop]
  | cons s rest ih =>
    rw [slabLoop]
    split_ifs with h1 h2
    · exact le_refl 0
    · have hrest := ih (rem - slab_income rem s) (fun t ht => h t (List.mem_cons_of_mem _ ht))
      have hr : 0 ≤ s.rate := h s (List.mem_cons_self _ _)
      have := mul_nonneg (le_of_lt h2) hr
      linarith
    · exact ih rem (fun t ht => h t (List.mem_cons_of_mem _ ht))

theorem old_rates_nonneg : ∀ s ∈ old_regime_slabs, 0 ≤ s.rate := by
  intro s hs
  fin_cases hs <;> norm_num

theorem new_rates_nonneg : ∀ s ∈ new_regime_slabs, 0 ≤ s.rate := by
  intro s hs
  fin_cases hs <;> norm_num

theorem old_taxable_def (g : ℚ) (d : List (String × ℚ)) :
    (calculate_old_regime_tax g d).taxable_income
      = pymax 0 (g - (sumValues d + standard_deduction)) := rfl

theorem old_income_tax_def (g : ℚ) (d : List (String × ℚ)) :
    (calculate_old_regime_tax g d).income_tax
      = if (calculate_old_regime_tax g d).taxable_income ≤ 500000
        then pymax 0
          (calculate_slab_tax (calculate_old_regime_tax g d).taxable_income old_regime_slabs
            - rebate_87a)
        else calculate_slab_tax (calculate_old_regime_tax g d).taxable_income old_regime_slabs :=
  rfl

theorem old_total_tax_def (g : ℚ) (d : List (String × ℚ)) :
    (calculate_old_regime_tax g d).total_tax
      = (calculate_old_regime_tax g d).income_tax
        + (calculate_old_regime_tax g d).income_tax * 0.04 := rfl

theorem old_effective_rate_def (g : ℚ) (d : List (String × ℚ)) :
    (calculate_old_regime_tax g d).effective_rate
      = if 0 < g then (calculate_old_regime_tax g d).total_tax / g * 100 else 0 := rfl

theorem new_taxable_def (g : ℚ) :
    (calculate_new_regime_tax g).taxable_income = pymax 0 (g - standard_deduction) := rfl

theorem new_income_tax_def (g : ℚ) :
    (calculate_new_regime_tax g).income_tax
      = if (calculate_new_regime_tax g).taxable_income ≤ 700000
        then pymax 0
          (calculate_slab_tax (calculate_new_regime_tax g).taxable_income new_regime_slabs
            - rebate_87a_new)
        else calculate_slab_tax (calculate_new_regime_tax g).taxable_income new_regime_slabs :=
  rfl

theorem new_total_tax_def (g : ℚ) :
    (calculate_new_regime_tax g).total_tax
      = (calculate_new_regime_tax g).income_tax
        + (calculate_new_regime_tax g).income_tax * 0.04 := rfl

theorem new_effective_rate_def (g : ℚ) :
    (calculate_new_regime_tax g).effective_rate
      = if 0 < g then (calculate_new_regime_tax g).total_tax / g * 100 else 0 := rfl

theorem compare_old_def (g : ℚ) (d : List (String × ℚ)) :
    (compare_regimes g d).old_regime = calculate_old_regime_tax g d := rfl

theorem compare_new_def (g : ℚ) (d : List (String × ℚ)) :
    (compare_regimes g d).new_regime = calculate_new_regime_tax g := rfl

theorem compare_recommended_def (g : ℚ) (d : List (String × ℚ)) :
    (compare_regimes g d).recommended_regime
      = if (calculate_old_regime_tax g d).total_tax < (calculate_new_regime_tax g).total_tax
        then "old" else "new" := rfl

theorem compare_savings_def (g : ℚ) (d : List (String × ℚ)) :
    (compare_regimes g d).savings
      = pyabs ((calculate_old_regime_tax g d).total_tax
          - (calculate_new_regime_tax g).total_tax) := rfl

theorem compare_savings_percentage_def (g : ℚ) (d : List (String × ℚ)) :
    (compare_regimes g d).savings_percentage
      = if 0 < pymax (calculate_old_regime_tax g d).total_tax (calculate_new_regime_tax g).total_tax
        then (compare_regimes g d).savings
          / pymax (calculate_old_regime_tax g d).total_tax (calculate_new_regime_tax g).total_tax
          * 100
        else 0 := rfl

end TaxCalc

namespace TaxCalc

/-- C4: for every taxable_income ≥ 0 and ascending slab table, the slab walk
of `_calculate_slab_tax` equals exact marginal-bracket taxation; both regime
tables are ascending; and under the old-regime slabs the pre-rebate tax is 0
at 250,000 and 0.05 at 250,001 (continuity at the bracket boundary). -/
theorem c4_slab_walk_is_marginal_taxation :
    (∀ (income : ℚ) (slabs : List TaxSlab), 0 ≤ income → SlabChain 0 slabs →
        calculate_slab_tax income slabs = marginal_slab_tax income slabs) ∧
    SlabChain 0 old_regime_slabs ∧ SlabChain 0 new_regime_slabs ∧
    calculate_slab_tax 250000 old_regime_slabs = 0 ∧
    calculate_slab_tax 250001 old_regime_slabs = 0.05 := by
  refine ⟨?_, slabChain_old, slabChain_new, ?_, ?_⟩
  · intro income slabs h hc
    have hmain := slabLoop_eq_marginal 0 slabs hc income
    rw [sub_zero, pymax0_of_nonneg h] at hmain
    exact hmain
  · norm_num [calculate_slab_tax, slabLoop, slab_income, old_regime_slabs, pymin, pymax]
  · norm_num [calculate_slab_tax, slabLoop, slab_income, old_regime_slabs, pymin, pymax]

/-- C5: for every gross income (negative included) and every deduction map,
both regime calculators return nonnegative taxable income, income tax
(the 87A rebate subtraction being floored at 0) and total tax. -/
theorem c5_tax_never_negative :
    ∀ (g : ℚ) (d : List (String × ℚ)),
      0 ≤ (calculate_old_regime_tax g d).taxable_income ∧
      0 ≤ (calculate_old_regime_tax g d).income_tax ∧
      0 ≤ (calculate_old_regime_tax g d).total_tax ∧
      0 ≤ (calculate_new_regime_tax g).taxable_income ∧
      0 ≤ (calculate_new_regime_tax g).income_tax ∧
      0 ≤ (calculate_new_regime_tax g).total_tax := by
  intro g d
  have hot : 0 ≤ (calculate_old_regime_tax g d).taxable_income := by
    rw [old_taxable_def]; exact le_pymax_left 0 _
  have hoi : 0 ≤ (calculate_old_regime_tax g d).income_tax := by
    rw [old_income_tax_def]
    split_ifs
    · exact le_pymax_left 0 _
    · exact slabLoop_nonneg _ _ old_rates_nonneg
  have hott : 0 ≤ (calculate_old_regime_tax g d).total_tax := by
    rw [old_total_tax_def]; nlinarith
  have hnt : 0 ≤ (calculate_new_regime_tax g).taxable_income := by
    rw [new_taxable_def]; exact le_pymax_left 0 _
  have hni : 0 ≤ (calculate_new_regime_tax g).income_tax := by
    rw [new_income_tax_def]
    split_ifs
    · exact le_pymax_left 0 _
    · exact slabLoop_nonneg _ _ new_rates_nonneg
  have hntt : 0 ≤ (calculate_new_regime_tax g).total_tax := by
    rw [new_total_tax_def]; nlinarith
  exact ⟨hot, hoi, hott, hnt, hni, hntt⟩

/-- C2 counterexample: at gross_income 0 with no deductions both regimes owe
the same total tax (0), yet `compare_regimes` recommends "new", not "old" —
ties do not go to the old regime. -/
theorem c2_tie_goes_to_new_counterexample :
    (compare_regimes 0 []).old_regime.total_tax = (compare_regimes 0 []).new_regime.total_tax ∧
    (compare_regimes 0 []).recommended_regime = "new" ∧
    ("new" : String) ≠ "old" := by
  refine ⟨?_, ?_, by decide⟩ <;>
    norm_num [compare_regimes, calculate_old_regime_tax, calculate_new_regime_tax,
      calculate_slab_tax, slabLoop, slab_income, old_regime_slabs, new_regime_slabs,
      standard_deduction, rebate_87a, rebate_87a_new, sumValues, pymax, pymin, pyabs]

/-- C2 (amended): the regime recommended by `compare_regimes` always has
total_tax ≤ the other regime's total_tax, but an exact tie is recommended as
"new" (the code only answers "old" on a strict improvement); savings is the
absolute difference of the two total taxes and savings_percentage is
difference / max(old, new) × 100, with 0 when that maximum is 0. -/
theorem c2_recommended_regime_minimal :
    ∀ (g : ℚ) (d : List (String × ℚ)),
      ((compare_regimes g d).recommended_regime = "old" ∨
        (compare_regimes g d).recommended_regime = "new") ∧
      ((compare_regimes g d).recommended_regime = "old" →
        (compare_regimes g d).old_regime.total_tax ≤ (compare_regimes g d).new_regime.total_tax) ∧
      ((compare_regimes g d).recommended_regime = "new" →
        (compare_regimes g d).new_regime.total_tax ≤ (compare_regimes g d).old_regime.total_tax) ∧
      ((compare_regimes g d).old_regime.total_tax = (compare_regimes g d).new_regime.total_tax →
        (compare_regimes g d).recommended_regime = "new") ∧
      (compare_regimes g d).savings =
        |(compare_regimes g d).old_regime.total_tax - (compare_regimes g d).new_regime.total_tax| ∧
      (0 < max (compare_regimes g d).old_regime.total_tax (compare_regimes g d).new_regime.total_tax →
        (compare_regimes g d).savings_percentage = (compare_regimes g d).savings /
          max (compare_regimes g d).old_regime.total_tax (compare_regimes g d).new_regime.total_tax
            * 100) ∧
      (max (compare_regimes g d).old_regime.total_tax (compare_regimes g d).new_regime.total_tax = 0 →
        (compare_regimes g d).savings_percentage = 0) := by
  intro g d
  rw [compare_old_def, compare_new_def, compare_recommended_def, compare_savings_def,
    compare_savings_percentage_def, pyabs_eq_abs, pymax_eq_max]
  by_cases h : (calculate_old_regime_tax g d).total_tax < (calculate_new_regime_tax g).total_tax
  · rw [if_pos h]
    refine ⟨Or.inl rfl, fun _ => le_of_lt h, fun hc => absurd hc (by decide), fun he => ?_, rfl,
      fun hmax => ?_, fun hmax => ?_⟩
    · exact absurd he (ne_of_lt h)
    · rw [if_pos hmax, compare_savings_def, pyabs_eq_abs]
    · rw [if_neg (by rw [hmax]; exact lt_irrefl 0)]
  · rw [if_neg h]
    refine ⟨Or.inr rfl, fun hc => absurd hc (by decide), fun _ => not_lt.mp h, fun _ => rfl, rfl,
      fun hmax => ?_, fun hmax => ?_⟩
    · rw [if_pos hmax, compare_savings_def, pyabs_eq_abs]
    · rw [if_neg (by rw [hmax]; exact lt_irrefl 0)]

end TaxCalc

namespace TaxCalc

/-- C1 counterexample: on the spec's example (gross 1,200,000, deductions
80C = 150,000 and 80D = 25,000) the code's new-regime slab walk over taxable
income 1,150,000 yields bracket tax 82,500 — not the 140,000 the spec
computes — so the new regime wins and "old" is not recommended. -/
theorem c1_example_counterexample :
    (compare_regimes 1200000 [("80C", 150000), ("80D", 25000)]).new_regime.income_tax = 82500 ∧
    ((82500 : ℚ) ≠ 140000) ∧
    (compare_regimes 1200000 [("80C", 150000), ("80D", 25000)]).recommended_regime = "new" ∧
    ("new" : String) ≠ "old" := by
  refine ⟨?_, by norm_num, ?_, by decide⟩ <;>
    norm_num [compare_regimes, calculate_old_regime_tax, calculate_new_regime_tax,
      calculate_slab_tax, slabLoop, slab_income, old_regime_slabs, new_regime_slabs,
      standard_deduction, rebate_87a, rebate_87a_new, sumValues, pymax, pymin, pyabs]

set_option maxHeartbeats 1600000 in
/-- C1 (amended): for gross_income 1,200,000 with deductions
{80C: 150000, 80D: 25000}, `compare_regimes` yields old-regime
taxable_income 975,000 and total_tax 111,800 (income tax 107,500 plus 4%
cess 4,300), new-regime taxable_income 1,150,000 and total_tax 85,800
(bracket tax 82,500, no rebate, cess 3,300), recommended_regime "new",
and potential savings 26,000. -/
theorem c1_example_scenario :
    (compare_regimes 1200000 [("80C", 150000), ("80D", 25000)]).old_regime.taxable_income
        = 975000 ∧
    (compare_regimes 1200000 [("80C", 150000), ("80D", 25000)]).old_regime.income_tax
        = 107500 ∧
    (compare_regimes 1200000 [("80C", 150000), ("80D", 25000)]).old_regime.cess = 4300 ∧
    (compare_regimes 1200000 [("80C", 150000), ("80D", 25000)]).old_regime.total_tax
        = 111800 ∧
    (compare_regimes 1200000 [("80C", 150000), ("80D", 25000)]).new_regime.taxable_income
        = 1150000 ∧
    (compare_regimes 1200000 [("80C", 150000), ("80D", 25000)]).new_regime.income_tax
        = 82500 ∧
    (compare_regimes 1200000 [("80C", 150000), ("80D", 25000)]).new_regime.cess = 3300 ∧
    (compare_regimes 1200000 [("80C", 150000), ("80D", 25000)]).new_regime.total_tax
        = 85800 ∧
    (compare_regimes 1200000 [("80C", 150000), ("80D", 25000)]).recommended_regime = "new" ∧
    (compare_regimes 1200000 [("80C", 150000), ("80D", 25000)]).savings = 26000 := by
  norm_num [compare_regimes, calculate_old_regime_tax, calculate_new_regime_tax,
      calculate_slab_tax, slabLoop, slab_income, old_regime_slabs, new_regime_slabs,
      standard_deduction, rebate_87a, rebate_87a_new, sumValues, pymax, pymin, pyabs]

end TaxCalc

/-- A normalized transaction record as the core consumes it.  `date` is
modelled by the two projections the analyzers actually use: the
`strftime('%Y-%m')` month key and an absolute day number (so that date
subtraction in days and date ordering are available). -/
structure Transaction where
  transaction_type : String
  category : String
  amount : ℚ
  tax_relevant : Bool
  tax_section : String
  description : String
  month_key : String
  day_index : ℤ
deriving DecidableEq, Repr

namespace TaxCalc

/-- The deductions dict of `calculate_deductions`: fixed keys
80C, 80D, 80G, 24b, HRA. -/
structure DeductionTotals where
  d80C : ℚ
  d80D : ℚ
  d80G : ℚ
  d24b : ℚ
  dHRA : ℚ
deriving DecidableEq, Repr

/-- `deductions[section] += amount` guarded by `if section in deductions`. -/
def addToSection (d : DeductionTotals) (sec : String) (amount : ℚ) : DeductionTotals :=
  if sec = "80C" then { d with d80C := d.d80C + amount }
  else if sec = "80D" then { d with d80D := d.d80D + amount }
  else if sec = "80G" then { d with d80G := d.d80G + amount }
  else if sec = "24b" then { d with d24b := d.d24b + amount }
  else if sec = "HRA" then { d with dHRA := d.dHRA + amount }
  else d

/-- The accumulation phase of `calculate_deductions`: user-supplied
additional deductions first, then every tax-relevant debit transaction's
amount into its tax_section. -/
def accumulate_deductions (transactions : List Transaction)
    (additional_deductions : List (String × ℚ)) : DeductionTotals :=
  let d1 := additional_deductions.foldl (fun d p => addToSection d p.1 p.2) ⟨0, 0, 0, 0, 0⟩
  transactions.foldl
    (fun d t =>
      if t.transaction_type = "debit" ∧ t.tax_relevant then addToSection d t.tax_section t.amount
      else d)
    d1

/-- `calculate_deductions(transactions, additional_deductions)`: accumulate,
then clamp each capped section at its statutory limit. -/
def calculate_deductions (transactions : List Transaction)
    (additional_deductions : List (String × ℚ)) : DeductionTotals :=
  let d := accumulate_deductions transactions additional_deductions
  { d with
    d80C := pymin d.d80C 150000
    d80D := pymin d.d80D 25000
    d80G := pymin d.d80G 100000
    d24b := pymin d.d24b 200000 }

theorem pymin_le_right (a b : ℚ) : pymin a b ≤ b := by
  rw [pymin]; split_ifs with h <;> linarith

/-- C6: every capped section of `calculate_deductions` output is at most its
statutory limit, for every transaction list and additional-deduction map;
and the cap is applied after accumulation, so a single 80C transaction of
amount ≥ 150,000 yields exactly 150,000 in 80C with every other section 0
(the excess is discarded, not carried elsewhere). -/
theorem c6_deduction_caps :
    (∀ (ts : List Transaction) (extra : List (String × ℚ)),
      (calculate_deductions ts extra).d80C ≤ 150000 ∧
      (calculate_deductions ts extra).d80D ≤ 25000 ∧
      (calculate_deductions ts extra).d80G ≤ 100000 ∧
      (calculate_deductions ts extra).d24b ≤ 200000) ∧
    (∀ A : ℚ, 150000 ≤ A →
      calculate_deductions [⟨"debit", "Investment", A, true, "80C", "", "", 0⟩] []
        = ⟨150000, 0, 0, 0, 0⟩) := by
  constructor
  · intro ts extra
    exact ⟨pymin_le_right _ _, pymin_le_right _ _, pymin_le_right _ _, pymin_le_right _ _⟩
  · intro A hA
    have hacc : accumulate_deductions [⟨"debit", "Investment", A, true, "80C", "", "", 0⟩] []
        = ⟨A, 0, 0, 0, 0⟩ := by
      simp [accumulate_deductions, addToSection]
    rw [calculate_deductions, hacc]
    simp only
    rw [pymin_right hA, pymin_left (by norm_num), pymin_left (by norm_num),
      pymin_left (by norm_num)]

end TaxCalc

/-- Python's `str.lower()`, character by character (ASCII case fold). -/
def lower (s : String) : String := ⟨s.data.map Char.toLower⟩

/-- Python's substring test `sub in s`: contiguous-sublist containment of
the character lists. -/
def pyIn (sub s : String) : Bool := decide (sub.data <:+: s.data)

/-- Python's `str.split()` with no argument: split on whitespace runs,
dropping empty pieces. -/
def pywords (s : String) : List String :=
  (s.split Char.isWhitespace).filter (fun w => w ≠ "")

/-- Python's `int()` conversion of a rational: truncation toward zero. -/
def pyint (q : ℚ) : ℤ := if 0 ≤ q then ⌊q⌋ else ⌈q⌉

/-- Python's two-argument `max` on integers. -/
def intmax (a b : ℤ) : ℤ := if a ≤ b then b else a

/-- Python's two-argument `min` on integers. -/
def intmin (a b : ℤ) : ℤ := if a ≤ b then a else b

namespace Cibil

def weight_payment_history : ℚ := 0.35
def weight_credit_utilization : ℚ := 0.30
def weight_credit_mix : ℚ := 0.15
def weight_new_credit : ℚ := 0.10
def weight_length_of_history : ℚ := 0.10

/-- Result of `_analyze_payment_consistency`; `total_months_analyzed` is
absent (`none`) in the no-data branch, as in the source dict. -/
structure PaymentConsistency where
  score : String
  consistency : ℚ
  missed_payments : ℤ
  total_months_analyzed : Option ℕ
deriving DecidableEq, Repr

/-- `_analyze_payment_consistency(transactions)`. -/
def analyze_payment_consistency (transactions : List Transaction) : PaymentConsistency :=
  let emi := transactions.filter (fun t => t.category == "EMI" && t.transaction_type == "debit")
  if emi.isEmpty then ⟨"no_data", 0, 0, none⟩
  else
    let months := (emi.map (fun t => t.month_key)).dedup
    let total_months := months.length
    let months_with_payments :=
      (months.filter (fun k => !(emi.filter (fun t => t.month_key == k)).isEmpty)).length
    let consistency :=
      if 0 < total_months then ((months_with_payments : ℚ) / (total_months : ℚ)) * 100 else 0
    let missed := max 0 ((total_months : ℤ) - (months_with_payments : ℤ))
    let score :=
      if 95 ≤ consistency then "excellent"
      else if 85 ≤ consistency then "good"
      else if 70 ≤ consistency then "fair"
      else if 50 ≤ consistency then "poor"
      else "bad"
    ⟨score, consistency, missed, some total_months⟩

/-- Result of `_analyze_credit_utilization`. -/
structure CreditUtilization where
  score : String
  estimated_utilization : ℚ
  estimated_balance : Option ℚ
  estimated_limit : Option ℚ
deriving DecidableEq, Repr

/-- Debit transactions whose description mentions "credit". -/
def credit_card_spends (transactions : List Transaction) : List Transaction :=
  transactions.filter (fun t => pyIn "credit" (lower t.description) && t.transaction_type == "debit")

/-- Credit transactions whose description mentions "credit". -/
def credit_card_payments (transactions : List Transaction) : List Transaction :=
  transactions.filter (fun t => pyIn "credit" (lower t.description) && t.transaction_type == "credit")

def credit_spend_total (transactions : List Transaction) : ℚ :=
  ((credit_card_spends transactions).map (fun t => t.amount)).sum

def credit_payment_total (transactions : List Transaction) : ℚ :=
  ((credit_card_payments transactions).map (fun t => t.amount)).sum

/-- `estimated_credit_limit = (total_spend / 12) * 4`. -/
def estimated_credit_limit (transactions : List Transaction) : ℚ :=
  credit_spend_total transactions / 12 * 4

/-- `current_balance = max(0, total_spend - total_payments)`. -/
def current_balance (transactions : List Transaction) : ℚ :=
  pymax 0 (credit_spend_total transactions - credit_payment_total transactions)

/-- `utilization = (current_balance / estimated_credit_limit) * 100` when the
limit is positive, else 0. -/
def utilization_percent (transactions : List Transaction) : ℚ :=
  if 0 < estimated_credit_limit transactions then
    current_balance transactions / estimated_credit_limit transactions * 100
  else 0

/-- `_analyze_credit_utilization(transactions)`. -/
def analyze_credit_utilization (transactions : List Transaction) : CreditUtilization :=
  if (credit_card_spends transactions).isEmpty then ⟨"no_data", 0, none, none⟩
  else
    ⟨if utilization_percent transactions ≤ 10 then "excellent"
     else if utilization_percent transactions ≤ 30 then "good"
     else if utilization_percent transactions ≤ 50 then "fair"
     else if utilization_percent transactions ≤ 70 then "poor"
     else "bad",
     pymin (utilization_percent transactions) 100,
     some (current_balance transactions),
     some (estimated_credit_limit transactions)⟩

/-- Result of `_analyze_credit_diversity`. -/
structure CreditDiversity where
  score : String
  credit_types : List String
  diversity_count : ℕ
deriving DecidableEq, Repr

/-- Python `set.add`: append when not yet present. -/
def addCreditType (acc : List String) (x : String) : List String :=
  if x ∈ acc then acc else acc ++ [x]

/-- The credit-type set accumulated by `_analyze_credit_diversity`. -/
def collect_credit_types (transactions : List Transaction) : List String :=
  transactions.foldl
    (fun acc t =>
      let d := lower t.description
      if pyIn "emi" d || pyIn "loan" d || pyIn "mortgage" d then
        if pyIn "home" d || pyIn "house" d then addCreditType acc "home_loan"
        else if pyIn "car" d || pyIn "auto" d then addCreditType acc "auto_loan"
        else addCreditType acc "personal_loan"
      else if pyIn "credit" d then addCreditType acc "credit_card"
      else acc)
    []

/-- `_analyze_credit_diversity(transactions)`. -/
def analyze_credit_diversity (transactions : List Transaction) : CreditDiversity :=
  let types := collect_credit_types transactions
  let n := types.length
  ⟨if 4 ≤ n then "excellent"
   else if 3 ≤ n then "good"
   else if 2 ≤ n then "fair"
   else if 1 ≤ n then "poor"
   else "bad",
   types, n⟩

/-- Result of `_estimate_credit_inquiries`. -/
structure CreditInquiries where
  score : String
  estimated_new_accounts : ℕ
  institutions : List String
deriving DecidableEq, Repr

/-- The first word of the description containing an institution keyword. -/
def institution_word (t : Transaction) : Option String :=
  (pywords (lower t.description)).find? (fun w =>
    pyIn "bank" w || pyIn "card" w || pyIn "finance" w || pyIn "loan" w)

/-- First-seen institution words across the transaction list. -/
def collect_institutions (transactions : List Transaction) : List String :=
  transactions.foldl
    (fun seen t =>
      match institution_word t with
      | none => seen
      | some w => if w ∈ seen then seen else seen ++ [w])
    []

/-- `_estimate_credit_inquiries(transactions)`. -/
def estimate_credit_inquiries (transactions : List Transaction) : CreditInquiries :=
  let insts := collect_institutions transactions
  let n := insts.length
  ⟨if n = 0 then "excellent"
   else if n ≤ 2 then "good"
   else if n ≤ 4 then "fair"
   else if n ≤ 6 then "poor"
   else "bad",
   n, insts⟩

/-- Result of `_estimate_account_age`. -/
structure AccountAge where
  score : String
  estimated_age_months : ℚ
  data_span_days : Option ℤ
deriving DecidableEq, Repr

/-- `_estimate_account_age(transactions)`: the day span between oldest and
newest transaction divided by 30.44. -/
def estimate_account_age (transactions : List Transaction) : AccountAge :=
  match transactions with
  | [] => ⟨"no_data", 0, none⟩
  | t :: ts =>
    let oldest := ts.foldl (fun m x => min m x.day_index) t.day_index
    let newest := ts.foldl (fun m x => max m x.day_index) t.day_index
    let span := newest - oldest
    let months : ℚ := (span : ℚ) / 30.44
    ⟨if 60 ≤ months then "excellent"
     else if 36 ≤ months then "good"
     else if 24 ≤ months then "fair"
     else if 12 ≤ months then "poor"
     else "bad",
     months, some span⟩

/-- Result of `_calculate_debt_to_income_ratio`; the income/EMI fields are
absent in the no-data branch as in the source dict. -/
structure DebtToIncome where
  ratio : ℚ
  score : String
  monthly_income : Option ℚ
  monthly_emi : Option ℚ
deriving DecidableEq, Repr

def monthly_income (transactions : List Transaction) : ℚ :=
  ((transactions.filter (fun t =>
    t.transaction_type == "credit" && t.category == "Salary")).map (fun t => t.amount)).sum / 12

def monthly_emi (transactions : List Transaction) : ℚ :=
  ((transactions.filter (fun t =>
    t.transaction_type == "debit" && t.category == "EMI")).map (fun t => t.amount)).sum / 12

/-- `_calculate_debt_to_income_ratio(transactions)`. -/
def calculate_debt_to_income_ratio (transactions : List Transaction) : DebtToIncome :=
  if monthly_income transactions = 0 then ⟨0, "no_data", none, none⟩
  else
    ⟨monthly_emi transactions / monthly_income transactions * 100,
     if monthly_emi transactions / monthly_income transactions * 100 ≤ 20 then "excellent"
     else if monthly_emi transactions / monthly_income transactions * 100 ≤ 36 then "good"
     else if monthly_emi transactions / monthly_income transactions * 100 ≤ 50 then "fair"
     else if monthly_emi transactions / monthly_income transactions * 100 ≤ 70 then "poor"
     else "bad",
     some (monthly_income transactions), some (monthly_emi transactions)⟩

/-- The behavior-analysis dict assembled by `analyze_financial_behavior`.
The `spending_patterns` entry of the source is not modelled: no downstream
computation (in particular not `predict_cibil_score`) reads it, and its
coefficient of variation involves a real square root. -/
structure BehaviorAnalysis where
  payment_consistency : PaymentConsistency
  credit_utilization : CreditUtilization
  credit_diversity : CreditDiversity
  new_credit_inquiries : CreditInquiries
  account_age : AccountAge
  debt_to_income : DebtToIncome
deriving DecidableEq, Repr

/-- `analyze_financial_behavior(transactions)`. -/
def analyze_financial_behavior (transactions : List Transaction) : BehaviorAnalysis :=
  ⟨analyze_payment_consistency transactions,
   analyze_credit_utilization transactions,
   analyze_credit_diversity transactions,
   estimate_credit_inquiries transactions,
   estimate_account_age transactions,
   calculate_debt_to_income_ratio transactions⟩

/-- `_get_component_score(grade)`: grade → 0-100 component score, with the
neutral 50 both for `no_data` and for any unknown grade (`dict.get` default). -/
def get_component_score (grade : String) : ℚ :=
  if grade = "excellent" then 95
  else if grade = "good" then 80
  else if grade = "fair" then 65
  else if grade = "poor" then 45
  else if grade = "bad" then 25
  else if grade = "no_data" then 50
  else 50

/-- The weighted component sum of `predict_cibil_score`. -/
def weighted_total (ba : BehaviorAnalysis) : ℚ :=
  get_component_score ba.payment_consistency.score * weight_payment_history +
  get_component_score ba.credit_utilization.score * weight_credit_utilization +
  get_component_score ba.credit_diversity.score * weight_credit_mix +
  get_component_score ba.new_credit_inquiries.score * weight_new_credit +
  get_component_score ba.account_age.score * weight_length_of_history

/-- `predict_cibil_score(behavior_analysis)`: 300 + weighted% × (900−300)/100,
truncated to an integer and clamped into [300, 900]. -/
def predict_cibil_score (ba : BehaviorAnalysis) : ℤ :=
  intmin 900 (intmax 300 (pyint (300 + weighted_total ba * (900 - 300) / 100)))

end Cibil

namespace Cibil

theorem get_component_score_bounds (g : String) :
    25 ≤ get_component_score g ∧ get_component_score g ≤ 95 := by
  rw [get_component_score]; split_ifs <;> norm_num

theorem weighted_total_bounds (ba : BehaviorAnalysis) :
    25 ≤ weighted_total ba ∧ weighted_total ba ≤ 95 := by
  obtain ⟨h1, h2⟩ := get_component_score_bounds ba.payment_consistency.score
  obtain ⟨h3, h4⟩ := get_component_score_bounds ba.credit_utilization.score
  obtain ⟨h5, h6⟩ := get_component_score_bounds ba.credit_diversity.score
  obtain ⟨h7, h8⟩ := get_component_score_bounds ba.new_credit_inquiries.score
  obtain ⟨h9, h10⟩ := get_component_score_bounds ba.account_age.score
  rw [weighted_total, weight_payment_history, weight_credit_utilization, weight_credit_mix,
    weight_new_credit, weight_length_of_history]
  constructor <;> nlinarith

/-- C7: for every behavior profile, `predict_cibil_score` lies in [300, 900]
and equals 300 + weighted_total × 6 truncated to an integer (the weights
being 0.35/0.30/0.15/0.10/0.10); the all-`no_data` profile scores exactly
600. -/
theorem c7_predict_cibil_score_range :
    (∀ ba : BehaviorAnalysis,
        300 ≤ predict_cibil_score ba ∧ predict_cibil_score ba ≤ 900 ∧
        predict_cibil_score ba = pyint (300 + weighted_total ba * 6)) ∧
    predict_cibil_score
        ⟨⟨"no_data", 0, 0, none⟩, ⟨"no_data", 0, none, none⟩, ⟨"no_data", [], 0⟩,
         ⟨"no_data", 0, []⟩, ⟨"no_data", 0, none⟩, ⟨0, "no_data", none, none⟩⟩ = 600 := by
  constructor
  · intro ba
    obtain ⟨h1, h2⟩ := weighted_total_bounds ba
    have heq : (300 : ℚ) + weighted_total ba * (900 - 300) / 100
        = 300 + weighted_total ba * 6 := by ring
    have hpos : (0 : ℚ) ≤ 300 + weighted_total ba * 6 := by linarith
    have hfl : pyint (300 + weighted_total ba * 6) = ⌊(300 + weighted_total ba * 6 : ℚ)⌋ := by
      rw [pyint, if_pos hpos]
    have hlow : (450 : ℤ) ≤ ⌊(300 + weighted_total ba * 6 : ℚ)⌋ := by
      apply Int.le_floor.mpr; push_cast; linarith
    have hhigh : ⌊(300 + weighted_total ba * 6 : ℚ)⌋ ≤ 870 := by
      have hle := Int.floor_le (300 + weighted_total ba * 6 : ℚ)
      have hcast : (⌊(300 + weighted_total ba * 6 : ℚ)⌋ : ℚ) ≤ 870 := by linarith
      exact_mod_cast hcast
    have hpred : predict_cibil_score ba = ⌊(300 + weighted_total ba * 6 : ℚ)⌋ := by
      rw [predict_cibil_score, heq, hfl, intmax, if_pos (by linarith), intmin,
        if_neg (by intro hcon; linarith)]
    exact ⟨by rw [hpred]; linarith, by rw [hpred]; linarith, by rw [hpred, hfl]⟩
  · rw [predict_cibil_score, weighted_total]
    rw [show get_component_score
        ((⟨⟨"no_data", 0, 0, none⟩, ⟨"no_data", 0, none, none⟩, ⟨"no_data", [], 0⟩,
          ⟨"no_data", 0, []⟩, ⟨"no_data", 0, none⟩,
          ⟨0, "no_data", none, none⟩⟩ : BehaviorAnalysis).payment_consistency.score)
        = 50 from rfl]
    norm_num [weight_payment_history, weight_credit_utilization, weight_credit_mix,
      weight_new_credit, weight_length_of_history, pyint, intmax, intmin]

/-- C3 counterexample: on the empty transaction list, credit diversity grades
"bad" and new-credit inquiries grade "excellent" — not `no_data`. -/
theorem c3_empty_history_counterexample :
    (analyze_credit_diversity []).score = "bad" ∧
    (estimate_credit_inquiries []).score = "excellent" ∧
    (("bad" : String) ≠ "no_data") ∧ (("excellent" : String) ≠ "no_data") := by
  refine ⟨rfl, rfl, by decide, by decide⟩

/-- C3 (amended): on the empty transaction list, payment consistency, credit
utilization and account age return `no_data` (each mapping to the neutral
component score 50), but credit diversity returns `bad` (a zero-size type
set) and new-credit inquiries returns `excellent` (zero inquiries); the
overall prediction still returns a score, 604. -/
theorem c3_empty_history_best_effort :
    (analyze_payment_consistency []).score = "no_data" ∧
    (analyze_credit_utilization []).score = "no_data" ∧
    (estimate_account_age []).score = "no_data" ∧
    (analyze_credit_diversity []).score = "bad" ∧
    (estimate_credit_inquiries []).score = "excellent" ∧
    get_component_score "no_data" = 50 ∧
    predict_cibil_score (analyze_financial_behavior []) = 604 := by
  refine ⟨rfl, rfl, rfl, rfl, rfl, rfl, ?_⟩
  rw [predict_cibil_score, weighted_total]
  rw [show get_component_score (analyze_financial_behavior []).payment_consistency.score
      = 50 from rfl]
  rw [show get_component_score (analyze_financial_behavior []).credit_utilization.score
      = 50 from rfl]
  rw [show get_component_score (analyze_financial_behavior []).credit_diversity.score
      = 25 from rfl]
  rw [show get_component_score (analyze_financial_behavior []).new_credit_inquiries.score
      = 95 from rfl]
  rw [show get_component_score (analyze_financial_behavior []).account_age.score
      = 50 from rfl]
  norm_num [weight_payment_history, weight_credit_utilization, weight_credit_mix,
    weight_new_credit, weight_length_of_history, pyint, intmax, intmin]

/-- C9: the four ratio computations are guarded against a zero denominator
and return 0 there: credit utilization with a zero estimated limit, the
debt-to-income ratio with zero monthly income, the regime savings percentage
with both total taxes zero, and both effective tax rates for non-positive
gross income. -/
theorem c9_division_by_zero_guards :
    (∀ ts : List Transaction, estimated_credit_limit ts = 0 →
        (analyze_credit_utilization ts).estimated_utilization = 0) ∧
    (∀ ts : List Transaction, monthly_income ts = 0 →
        (calculate_debt_to_income_ratio ts).ratio = 0 ∧
        (calculate_debt_to_income_ratio ts).score = "no_data") ∧
    (∀ (g : ℚ) (d : List (String × ℚ)),
        (TaxCalc.calculate_old_regime_tax g d).total_tax = 0 →
        (TaxCalc.calculate_new_regime_tax g).total_tax = 0 →
        (TaxCalc.compare_regimes g d).savings_percentage = 0) ∧
    (∀ (g : ℚ) (d : List (String × ℚ)), g ≤ 0 →
        (TaxCalc.calculate_old_regime_tax g d).effective_rate = 0 ∧
        (TaxCalc.calculate_new_regime_tax g).effective_rate = 0) := by
  refine ⟨?_, ?_, ?_, ?_⟩
  · intro ts h
    rw [analyze_credit_utilization]
    by_cases hs : (credit_card_spends ts).isEmpty = true
    · rw [if_pos hs]
    · rw [if_neg hs]
      show pymin (utilization_percent ts) 100 = 0
      rw [utilization_percent, h, if_neg (lt_irrefl 0), TaxCalc.pymin_left (by norm_num)]
  · intro ts h
    rw [calculate_debt_to_income_ratio, if_pos h]
    exact ⟨rfl, rfl⟩
  · intro g d h1 h2
    rw [TaxCalc.compare_savings_percentage_def, h1, h2, TaxCalc.pymax0_of_nonpos le_rfl,
      if_neg (lt_irrefl 0)]
  · intro g d hg
    constructor
    · rw [TaxCalc.old_effective_rate_def, if_neg (not_lt.mpr hg)]
    · rw [TaxCalc.new_effective_rate_def, if_neg (not_lt.mpr hg)]

end Cibil

/-- Python's `str.strip()` on a character list: drop whitespace from both
ends. -/
def stripChars (l : List Char) : List Char :=
  ((l.dropWhile Char.isWhitespace).reverse.dropWhile Char.isWhitespace).reverse

/-- Python's `str.strip()`. -/
def pyStrip (s : String) : String := ⟨stripChars s.data⟩

namespace Categorizer

/-- One token of the small regex dialect the category patterns use:
a literal piece, `\s*`, `\d+` or `\w+` (the latter two occur only in
final position, so greedy matching is exact). -/
inductive RTok
  | lit (s : String)
  | ws
  | digits
  | word
deriving DecidableEq, Repr

/-- Whether a token list matches at the head of `cs`. -/
def matchToks : List RTok → List Char → Bool
  | [], _ => true
  | RTok.lit s :: rest, cs => s.data.isPrefixOf cs && matchToks rest (cs.drop s.length)
  | RTok.ws :: rest, cs => matchToks rest (cs.dropWhile Char.isWhitespace)
  | RTok.digits :: rest, cs =>
    match cs with
    | [] => false
    | c :: cs2 => c.isDigit && matchToks rest (cs2.dropWhile Char.isDigit)
  | RTok.word :: rest, cs =>
    match cs with
    | [] => false
    | c :: cs2 => (c.isAlphanum || c = '_') &&
        matchToks rest (cs2.dropWhile (fun x => x.isAlphanum || x = '_'))

/-- Python's `re.search`: the pattern matches at some position. -/
def re_search (p : List RTok) (s : String) : Bool :=
  s.data.tails.any (fun t => matchToks p t)

/-- One entry of `category_patterns`: keyword list, compiled regex pattern
list, and the static metadata of the category. -/
structure CategoryConfig where
  keywords : List String
  patterns : List (List RTok)
  tax_relevant : Bool
  tax_section : Option String
  is_recurring : Bool
  frequency : Option String
deriving DecidableEq, Repr

def salary_config : CategoryConfig :=
  { keywords := ["salary", "sal", "payroll", "wages", "income", "stipend"]
    patterns := [[RTok.lit "sal", RTok.ws, RTok.digits],
                 [RTok.lit "salary", RTok.ws, RTok.lit "credit"],
                 [RTok.lit "payroll"]]
    tax_relevant := true
    tax_section := some "income"
    is_recurring := true
    frequency := some "monthly" }

def emi_config : CategoryConfig :=
  { keywords := ["emi", "loan", "mortgage", "installment", "equated"]
    patterns := [[RTok.lit "emi", RTok.ws, RTok.digits],
                 [RTok.lit "loan", RTok.ws, RTok.lit "repayment"],
                 [RTok.lit "home", RTok.ws, RTok.lit "loan"],
                 [RTok.lit "car", RTok.ws, RTok.lit "loan"]]
    tax_relevant := true
    tax_section := some "24b"
    is_recurring := true
    frequency := some "monthly" }

def sip_config : CategoryConfig :=
  { keywords := ["sip", "mutual fund", "systematic", "investment"]
    patterns := [[RTok.lit "sip", RTok.ws, RTok.digits],
                 [RTok.lit "mf", RTok.ws, RTok.lit "investment"],
                 [RTok.lit "systematic", RTok.ws, RTok.lit "investment"]]
    tax_relevant := true
    tax_section := some "80C"
    is_recurring := true
    frequency := some "monthly" }

def insurance_config : CategoryConfig :=
  { keywords := ["insurance", "premium", "policy", "lic", "health insurance"]
    patterns := [[RTok.lit "insurance", RTok.ws, RTok.lit "premium"],
                 [RTok.lit "policy", RTok.ws, RTok.digits],
                 [RTok.lit "lic", RTok.ws, RTok.lit "premium"]]
    tax_relevant := true
    tax_section := some "80C"
    is_recurring := true
    frequency := some "yearly" }

def rent_config : CategoryConfig :=
  { keywords := ["rent", "house rent", "apartment", "flat rent"]
    patterns := [[RTok.lit "house", RTok.ws, RTok.lit "rent"],
                 [RTok.lit "flat", RTok.ws, RTok.lit "rent"],
                 [RTok.lit "rent", RTok.ws, RTok.digits]]
    tax_relevant := true
    tax_section := some "HRA"
    is_recurring := true
    frequency := some "monthly" }

def utilities_config : CategoryConfig :=
  { keywords := ["electricity", "water", "gas", "internet", "mobile", "phone"]
    patterns := [[RTok.lit "electric", RTok.ws, RTok.lit "bill"],
                 [RTok.lit "water", RTok.ws, RTok.lit "bill"],
                 [RTok.lit "gas", RTok.ws, RTok.lit "bill"],
                 [RTok.lit "mobile", RTok.ws, RTok.lit "recharge"]]
    tax_relevant := false
    tax_section := none
    is_recurring := true
    frequency := some "monthly" }

def food_config : CategoryConfig :=
  { keywords := ["food", "restaurant", "swiggy", "zomato", "grocery", "supermarket"]
    patterns := [[RTok.lit "swiggy"], [RTok.lit "zomato"], [RTok.lit "restaurant"],
                 [RTok.lit "food", RTok.ws, RTok.lit "court"]]
    tax_relevant := false
    tax_section := none
    is_recurring := false
    frequency := none }

def transportation_config : CategoryConfig :=
  { keywords := ["uber", "ola", "taxi", "metro", "bus", "fuel", "petrol", "diesel"]
    patterns := [[RTok.lit "uber"], [RTok.lit "ola"],
                 [RTok.lit "fuel", RTok.ws, RTok.lit "station"],
                 [RTok.lit "petrol", RTok.ws, RTok.lit "pump"]]
    tax_relevant := false
    tax_section := none
    is_recurring := false
    frequency := none }

def medical_config : CategoryConfig :=
  { keywords := ["hospital", "medical", "doctor", "pharmacy", "medicine", "health"]
    patterns := [[RTok.lit "hospital"], [RTok.lit "medical", RTok.ws, RTok.lit "store"],
                 [RTok.lit "pharmacy"], [RTok.lit "dr", RTok.ws, RTok.word]]
    tax_relevant := true
    tax_section := some "80D"
    is_recurring := false
    frequency := none }

def education_config : CategoryConfig :=
  { keywords := ["school", "college", "university", "tuition", "education", "course"]
    patterns := [[RTok.lit "school", RTok.ws, RTok.lit "fee"],
                 [RTok.lit "college", RTok.ws, RTok.lit "fee"],
                 [RTok.lit "tuition"], [RTok.lit "education"]]
    tax_relevant := true
    tax_section := some "80C"
    is_recurring := true
    frequency := some "yearly" }

def investment_config : CategoryConfig :=
  { keywords := ["investment", "mutual fund", "stocks", "equity", "bond", "fd", "fixed deposit"]
    patterns := [[RTok.lit "mutual", RTok.ws, RTok.lit "fund"],
                 [RTok.lit "equity", RTok.ws, RTok.lit "investment"],
                 [RTok.lit "fixed", RTok.ws, RTok.lit "deposit"]]
    tax_relevant := true
    tax_section := some "80C"
    is_recurring := false
    frequency := none }

def shopping_config : CategoryConfig :=
  { keywords := ["amazon", "flipkart", "shopping", "mall", "store", "market"]
    patterns := [[RTok.lit "amazon"], [RTok.lit "flipkart"],
                 [RTok.lit "shopping", RTok.ws, RTok.lit "mall"]]
    tax_relevant := false
    tax_section := none
    is_recurring := false
    frequency := none }

def entertainment_config : CategoryConfig :=
  { keywords := ["movie", "cinema", "netflix", "prime", "spotify", "entertainment"]
    patterns := [[RTok.lit "movie", RTok.ws, RTok.lit "ticket"], [RTok.lit "netflix"],
                 [RTok.lit "amazon", RTok.ws, RTok.lit "prime"], [RTok.lit "spotify"]]
    tax_relevant := false
    tax_section := none
    is_recurring := false
    frequency := none }

def atm_config : CategoryConfig :=
  { keywords := ["atm", "cash withdrawal", "withdrawal"]
    patterns := [[RTok.lit "atm", RTok.ws, RTok.lit "withdrawal"],
                 [RTok.lit "cash", RTok.ws, RTok.lit "withdrawal"]]
    tax_relevant := false
    tax_section := none
    is_recurring := false
    frequency := none }

def transfer_config : CategoryConfig :=
  { keywords := ["transfer", "neft", "imps", "rtgs", "upi"]
    patterns := [[RTok.lit "neft"], [RTok.lit "imps"], [RTok.lit "rtgs"],
                 [RTok.lit "upi"], [RTok.lit "transfer"]]
    tax_relevant := false
    tax_section := none
    is_recurring := false
    frequency := none }

/-- The ordered category rule table of `TransactionCategorizer.__init__`. -/
def category_patterns : List (String × CategoryConfig) :=
  [("Salary", salary_config), ("EMI", emi_config), ("SIP", sip_config),
   ("Insurance", insurance_config), ("Rent", rent_config), ("Utilities", utilities_config),
   ("Food", food_config), ("Transportation", transportation_config),
   ("Medical", medical_config), ("Education", education_config),
   ("Investment", investment_config), ("Shopping", shopping_config),
   ("Entertainment", entertainment_config), ("ATM", atm_config),
   ("Transfer", transfer_config)]

/-- A category matches a (lowercased, stripped) description when some
keyword is a substring or some pattern matches. -/
def category_matches (cfg : CategoryConfig) (dl : String) : Bool :=
  cfg.keywords.any (fun k => pyIn k dl) || cfg.patterns.any (fun p => re_search p dl)

/-- The first category of the ordered scan in `categorize_transaction` that
matches the lowercased, stripped description. -/
def first_matching_category (description : String) : Option (String × CategoryConfig) :=
  category_patterns.find? (fun p => category_matches p.2 (pyStrip (lower description)))

/-- The result dict of categorization. -/
structure CategoryResult where
  category : String
  subcategory : String
  tax_relevant : Bool
  is_recurring : Bool
  tax_section : Option String
  frequency : Option String
deriving DecidableEq, Repr

/-- The subcategory keyword tables of `_get_subcategory`. -/
def subcategories_table : List (String × List (String × List String)) :=
  [("Food",
    [("restaurant", ["restaurant", "hotel", "cafe", "food court"]),
     ("delivery", ["swiggy", "zomato", "delivery"]),
     ("grocery", ["grocery", "supermarket", "mall", "store"])]),
   ("Transportation",
    [("cab", ["uber", "ola", "taxi"]),
     ("fuel", ["petrol", "diesel", "fuel"]),
     ("public", ["metro", "bus", "auto"])]),
   ("Utilities",
    [("electricity", ["electric", "power", "mseb"]),
     ("water", ["water", "municipal"]),
     ("internet", ["internet", "broadband", "wifi"]),
     ("mobile", ["mobile", "phone", "airtel", "jio", "vi"])]),
   ("Shopping",
    [("online", ["amazon", "flipkart", "myntra"]),
     ("offline", ["mall", "store", "market"])])]

/-- `_get_subcategory(category, description)`.  The table keys are single
words, so Python's `str.title()` coincides with `String.capitalize`. -/
def get_subcategory (category : String) (description : String) : String :=
  match subcategories_table.find? (fun p => p.1 == category) with
  | none => category
  | some (_, subs) =>
    match subs.find? (fun q => q.2.any (fun k => pyIn k (lower description))) with
    | some (subcat, _) => subcat.capitalize
    | none => category

/-- The secondary keyword check of the Insurance special case. -/
def health_terms_present (description : String) : Bool :=
  pyIn "health" (lower description) || pyIn "medical" (lower description) ||
    pyIn "mediclaim" (lower description)

/-- `_build_category_result(category, config, description, amount)`. -/
def build_category_result (category : String) (cfg : CategoryConfig)
    (description : String) (amount : ℚ) : CategoryResult :=
  let result : CategoryResult :=
    { category := category
      subcategory := get_subcategory category description
      tax_relevant := cfg.tax_relevant
      is_recurring := cfg.is_recurring
      tax_section := cfg.tax_section
      frequency := cfg.frequency }
  if category = "Insurance" then
    if health_terms_present description then
      { result with tax_section := some "80D", subcategory := "Health Insurance" }
    else
      { result with tax_section := some "80C", subcategory := "Life Insurance" }
  else result

/-- `_categorize_by_amount(description, amount)`. -/
def categorize_by_amount (description : String) (amount : ℚ) : CategoryResult :=
  if 50000 < amount then
    if pyIn "transfer" (lower description) || pyIn "neft" (lower description) ||
        pyIn "imps" (lower description) then
      ⟨"Investment", "Large Transfer", false, false, none, none⟩
    else
      ⟨"Investment", "Major Purchase", false, false, none, none⟩
  else if amount < 1000 &&
      (pyIn "monthly" (lower description) || pyIn "subscription" (lower description)) then
    ⟨"Entertainment", "Subscription", false, true, none, some "monthly"⟩
  else
    ⟨"Others", "Miscellaneous", false, false, none, none⟩

/-- `categorize_transaction(description, amount)`: ordered rule scan over
the lowercased, stripped description, then the amount-based fallback. -/
def categorize_transaction (description : String) (amount : ℚ) : CategoryResult :=
  match first_matching_category description with
  | some (cat, cfg) => build_category_result cat cfg description amount
  | none => categorize_by_amount description amount

end Categorizer

namespace Categorizer

/-- C8: the rule scan respects the fixed declaration order of the 15
categories, and whenever some category matches the processed description the
result carries the first matching category and its static metadata — except
that a match on "Insurance" is re-split to 80D / "Health Insurance" when a
health term occurs in the description and to 80C / "Life Insurance"
otherwise. -/
theorem c8_ordered_first_match_metadata :
    (category_patterns.map Prod.fst =
      ["Salary", "EMI", "SIP", "Insurance", "Rent", "Utilities", "Food", "Transportation",
       "Medical", "Education", "Investment", "Shopping", "Entertainment", "ATM", "Transfer"]) ∧
    (∀ (description : String) (amount : ℚ) (cat : String) (cfg : CategoryConfig),
      first_matching_category description = some (cat, cfg) →
        (categorize_transaction description amount).category = cat ∧
        (categorize_transaction description amount).tax_relevant = cfg.tax_relevant ∧
        (categorize_transaction description amount).is_recurring = cfg.is_recurring ∧
        (categorize_transaction description amount).frequency = cfg.frequency ∧
        (cat ≠ "Insurance" →
          (categorize_transaction description amount).tax_section = cfg.tax_section) ∧
        (cat = "Insurance" → health_terms_present description = true →
          (categorize_transaction description amount).tax_section = some "80D" ∧
          (categorize_transaction description amount).subcategory = "Health Insurance") ∧
        (cat = "Insurance" → health_terms_present description = false →
          (categorize_transaction description amount).tax_section = some "80C" ∧
          (categorize_transaction description amount).subcategory = "Life Insurance")) := by
  constructor
  · rfl
  · intro description amount cat cfg h
    have hct : categorize_transaction description amount
        = build_category_result cat cfg description amount := by
      rw [categorize_transaction, h]
    rw [hct, build_category_result]
    by_cases hIns : cat = "Insurance"
    · rw [if_pos hIns]
      by_cases hH : health_terms_present description = true
      · rw [if_pos hH]
        refine ⟨rfl, rfl, rfl, rfl, fun hc => absurd hIns hc, fun _ _ => ⟨rfl, rfl⟩,
          fun _ hhf => ?_⟩
        rw [hH] at hhf
        exact absurd hhf (by decide)
      · rw [if_neg hH]
        have hHf : health_terms_present description = false := Bool.eq_false_iff.mpr hH
        refine ⟨rfl, rfl, rfl, rfl, fun hc => absurd hIns hc, fun _ hht => ?_,
          fun _ _ => ⟨rfl, rfl⟩⟩
        rw [hHf] at hht
        exact absurd hht (by decide)
    · rw [if_neg hIns]
      exact ⟨rfl, rfl, rfl, rfl, fun _ => rfl, fun hc _ => absurd hc hIns,
        fun hc _ => absurd hc hIns⟩

end Categorizer

namespace Categorizer

/-- An infix whose first element the predicate rejects survives a left
`dropWhile`. -/
theorem infix_dropWhile_left {α : Type} (p : α → Bool) (kw l : List α) (c : α)
    (hc : kw.head? = some c) (hp : p c = false) (h : kw <:+: l) :
    kw <:+: l.dropWhile p := by
  induction l with
  | nil =>
    rw [List.infix_nil] at h
    subst h
    simp at hc
  | cons x xs ih =>
    rw [List.dropWhile_cons]
    split_ifs with hx
    · apply ih
      obtain ⟨s, t, hst⟩ := h
      cases s with
      | nil =>
        cases kw with
        | nil => simp at hc
        | cons a kw2 =>
          simp only [List.nil_append, List.cons_append, List.cons.injEq] at hst
          obtain ⟨hxa, hxs⟩ := hst
          have hac : a = c := by simpa using hc
          rw [← hxa, hac, hp] at hx
          exact absurd hx (by decide)
      | cons a s2 =>
        simp only [List.cons_append, List.cons.injEq] at hst
        obtain ⟨hxa, hxs⟩ := hst
        exact ⟨s2, t, hxs⟩
    · exact h

/-- An infix whose edge characters are not whitespace survives Python's
`strip`. -/
theorem infix_stripChars (kw l : List Char) (c d : Char)
    (hhead : kw.head? = some c) (hcw : c.isWhitespace = false)
    (hlast : kw.reverse.head? = some d) (hdw : d.isWhitespace = false)
    (h : kw <:+: l) : kw <:+: stripChars l := by
  have h1 : kw <:+: l.dropWhile Char.isWhitespace :=
    infix_dropWhile_left Char.isWhitespace kw l c hhead hcw h
  have h2 : kw.reverse <:+: (l.dropWhile Char.isWhitespace).reverse :=
    List.reverse_infix.mpr h1
  have h3 : kw.reverse <:+: (l.dropWhile Char.isWhitespace).reverse.dropWhile Char.isWhitespace :=
    infix_dropWhile_left Char.isWhitespace kw.reverse _ d hlast hdw h2
  have h4 := List.reverse_infix.mpr h3
  rw [List.reverse_reverse] at h4
  rw [stripChars]
  exact h4

/-- A keyword with non-whitespace edge characters found in a string is also
found in the stripped string. -/
theorem pyIn_pyStrip_of_pyIn (kw s : String) (c d : Char)
    (hhead : kw.data.head? = some c) (hcw : c.isWhitespace = false)
    (hlast : kw.data.reverse.head? = some d) (hdw : d.isWhitespace = false)
    (h : pyIn kw s = true) : pyIn kw (pyStrip s) = true := by
  rw [pyIn, decide_eq_true_eq] at h
  rw [pyIn, decide_eq_true_eq]
  show kw.data <:+: stripChars s.data
  exact infix_stripChars kw.data s.data c d hhead hcw hlast hdw h

/-- `_get_subcategory` never invents the string "Large Transfer": it returns
either the category itself or one of the fixed capitalized table keys. -/
theorem get_subcategory_ne_large_transfer (cat description : String)
    (hcat : cat ≠ "Large Transfer") :
    get_subcategory cat description ≠ "Large Transfer" := by
  rw [get_subcategory]
  split
  · exact hcat
  · rename_i a subs heq
    split
    · rename_i subcat kws heq2
      have hp := List.mem_of_find?_eq_some heq
      have hq := List.mem_of_find?_eq_some heq2
      fin_cases hp <;> fin_cases hq <;> decide
    · exact hcat

/-- C10: `categorize_transaction` never returns the subcategory
"Large Transfer": a description containing "transfer", "neft" or "imps"
already matches the Transfer category during the ordered scan, so the
amount-based fallback branch producing that subcategory is unreachable. -/
theorem c10_no_large_transfer_subcategory :
    ∀ (description : String) (amount : ℚ),
      (categorize_transaction description amount).subcategory ≠ "Large Transfer" := by
  intro description amount
  rw [categorize_transaction]
  cases hfm : first_matching_category description with
  | some p =>
    obtain ⟨cat, cfg⟩ := p
    rw [first_matching_category] at hfm
    have hmem : (cat, cfg) ∈ category_patterns := List.mem_of_find?_eq_some hfm
    have hcat : cat ≠ "Large Transfer" := by
      have hmap : cat ∈ category_patterns.map Prod.fst := List.mem_map_of_mem Prod.fst hmem
      fin_cases hmap <;> decide
    show (build_category_result cat cfg description amount).subcategory ≠ "Large Transfer"
    rw [build_category_result]
    by_cases hIns : cat = "Insurance"
    · rw [if_pos hIns]
      by_cases hH : health_terms_present description = true
      · rw [if_pos hH]
        show ("Health Insurance" : String) ≠ "Large Transfer"
        decide
      · rw [if_neg hH]
        show ("Life Insurance" : String) ≠ "Large Transfer"
        decide
    · rw [if_neg hIns]
      show get_subcategory cat description ≠ "Large Transfer"
      exact get_subcategory_ne_large_transfer cat description hcat
  | none =>
    rw [first_matching_category] at hfm
    have hall := List.find?_eq_none.mp hfm
    have hTr : category_matches transfer_config (pyStrip (lower description)) = false :=
      Bool.eq_false_iff.mpr (hall ("Transfer", transfer_config) (by decide))
    rw [category_matches, Bool.or_eq_false_iff] at hTr
    obtain ⟨hkw, _⟩ := hTr
    rw [show transfer_config.keywords = ["transfer", "neft", "imps", "rtgs", "upi"] from rfl]
      at hkw
    simp only [List.any_cons, List.any_nil, Bool.or_eq_false_iff] at hkw
    obtain ⟨ht, hn, hi, _, _, _⟩ := hkw
    show (categorize_by_amount description amount).subcategory ≠ "Large Transfer"
    rw [categorize_by_amount]
    split_ifs with h1 h2 h3
    · exfalso
      have h2o : (pyIn "transfer" (lower description) = true ∨
          pyIn "neft" (lower description) = true) ∨
          pyIn "imps" (lower description) = true := by
        simpa using h2
      rcases h2o with (hcase | hcase) | hcase
      · rw [pyIn_pyStrip_of_pyIn "transfer" (lower description) 't' 'r' rfl (by decide) rfl
          (by decide) hcase] at ht
        exact absurd ht (by decide)
      · rw [pyIn_pyStrip_of_pyIn "neft" (lower description) 'n' 't' rfl (by decide) rfl
          (by decide) hcase] at hn
        exact absurd hn (by decide)
      · rw [pyIn_pyStrip_of_pyIn "imps" (lower description) 'i' 's' rfl (by decide) rfl
          (by decide) hcase] at hi
        exact absurd hi (by decide)
    · decide
    · decide
    · decide

end Categorizer
